import Mathlib

/-!
Verification of the measurement pipeline of src/src/components/MeasurementCamera.tsx.
The component computes shoulder width and height estimates from detected pose
keypoints and publishes the latest successful measurement.  Coordinates are
modelled as real numbers, the rounded centimeter results as integers.
-/

namespace MeasurementCamera

/-- Frame width constant from the source (CAMERA_WIDTH = 640). -/
def CAMERA_WIDTH : ℕ := 640

/-- Frame height constant from the source (CAMERA_HEIGHT = 480). -/
def CAMERA_HEIGHT : ℕ := 480

/-- The fixed pixel-to-centimeter conversion factor from the source. -/
noncomputable def PIXEL_TO_CM_RATIO : ℝ := 0.264583

/-- A detected keypoint: pixel coordinates, confidence score, landmark name. -/
structure Keypoint where
  x : ℝ
  y : ℝ
  score : ℝ
  name : String

/-- A detected pose: the ordered list of its keypoints. -/
structure Pose where
  keypoints : List Keypoint

/-- The derived measurement record, both fields rounded centimeters. -/
structure Measurements where
  height : ℤ
  shoulderWidth : ℤ

/-- Landmark name used by the source lookups. -/
def nameLeftShoulder : String := "left_shoulder"

/-- Landmark name used by the source lookups. -/
def nameRightShoulder : String := "right_shoulder"

/-- Landmark name used by the source lookups. -/
def nameLeftAnkle : String := "left_ankle"

/-- Landmark name used by the source lookups. -/
def nameNose : String := "nose"

/-- Lookup of a landmark by name: keypoints.find(kp => kp.name === n). -/
def findLandmark (kps : List Keypoint) (n : String) : Option Keypoint :=
  kps.find? (fun kp => kp.name == n)

/-- Shallow embedding of calculateMeasurements (MeasurementCamera.tsx lines
33-62): null for an empty pose list, null when any of the four required
landmarks is missing from the first pose, otherwise the Euclidean shoulder
distance and vertical-only height, scaled by the ratio and rounded. -/
noncomputable def calculateMeasurements (poses : List Pose) : Option Measurements :=
  match poses with
  | [] => none
  | pose :: _ =>
    let keypoints := pose.keypoints
    match findLandmark keypoints nameLeftShoulder, findLandmark keypoints nameRightShoulder,
          findLandmark keypoints nameLeftAnkle, findLandmark keypoints nameNose with
    | some leftShoulder, some rightShoulder, some leftAnkle, some nose =>
      let shoulderWidth : ℝ :=
        Real.sqrt ((rightShoulder.x - leftShoulder.x) ^ 2 + (rightShoulder.y - leftShoulder.y) ^ 2)
      let height : ℝ := |nose.y - leftAnkle.y|
      some ⟨round (height * PIXEL_TO_CM_RATIO), round (shoulderWidth * PIXEL_TO_CM_RATIO)⟩
    | _, _, _, _ => none

/-- Shallow embedding of one cycle of detect (lines 64-75): a missing detector
or video element makes the cycle a no-op, and only a non-null result of
calculateMeasurements overwrites the published state. -/
noncomputable def detect (detectorReady videoAvailable : Bool) (poses : List Pose)
    (measurements : Option Measurements) : Option Measurements :=
  if detectorReady = false then measurements
  else if videoAvailable = false then measurements
  else
    match calculateMeasurements poses with
    | some m => some m
    | none => measurements

/-- The observable inputs of one sampling tick: detector readiness, video
availability, and the pose list the detector returns for the current frame. -/
structure CycleInput where
  detectorReady : Bool
  videoAvailable : Bool
  poses : List Pose

/-- Iterated detect cycles starting from a published state. -/
noncomputable def runCycles (s : Option Measurements) (l : List CycleInput) :
    Option Measurements :=
  l.foldl (fun st c => detect c.detectorReady c.videoAvailable c.poses st) s

/-- Unfolding lemma: calculateMeasurements on a nonempty list with all four
landmarks found in the head pose. -/
theorem calcM_cons_eq (pose : Pose) (rest : List Pose) (ls rs la n : Keypoint)
    (hls : findLandmark pose.keypoints nameLeftShoulder = some ls)
    (hrs : findLandmark pose.keypoints nameRightShoulder = some rs)
    (hla : findLandmark pose.keypoints nameLeftAnkle = some la)
    (hn : findLandmark pose.keypoints nameNose = some n) :
    calculateMeasurements (pose :: rest) =
      some ⟨round (|n.y - la.y| * PIXEL_TO_CM_RATIO),
            round (Real.sqrt ((rs.x - ls.x) ^ 2 + (rs.y - ls.y) ^ 2) * PIXEL_TO_CM_RATIO)⟩ := by
  simp [calculateMeasurements, hls, hrs, hla, hn]

/-- Unfolding lemma: calculateMeasurements is none when a required landmark is
missing from the head pose. -/
theorem calcM_cons_missing (pose : Pose) (rest : List Pose)
    (h : findLandmark pose.keypoints nameLeftShoulder = none ∨
         findLandmark pose.keypoints nameRightShoulder = none ∨
         findLandmark pose.keypoints nameLeftAnkle = none ∨
         findLandmark pose.keypoints nameNose = none) :
    calculateMeasurements (pose :: rest) = none := by
  rcases hA : findLandmark pose.keypoints nameLeftShoulder with _ | a <;>
    rcases hB : findLandmark pose.keypoints nameRightShoulder with _ | b <;>
      rcases hC : findLandmark pose.keypoints nameLeftAnkle with _ | c <;>
        rcases hD : findLandmark pose.keypoints nameNose with _ | d <;>
          simp_all [calculateMeasurements]

/-- A no-op cycle: when calculateMeasurements gives none, detect leaves the
published state unchanged. -/
theorem detect_none (d v : Bool) (poses : List Pose) (s : Option Measurements)
    (h : calculateMeasurements poses = none) : detect d v poses s = s := by
  cases d <;> cases v <;> simp [detect, h]

/-- Concrete keypoint used in witnesses: left shoulder at the origin. -/
noncomputable def kpLS : Keypoint := ⟨0, 0, 1, nameLeftShoulder⟩

/-- Concrete keypoint used in witnesses: right shoulder at (3, 4). -/
noncomputable def kpRS : Keypoint := ⟨3, 4, 1, nameRightShoulder⟩

/-- Concrete keypoint used in witnesses: left ankle at (0, 100). -/
noncomputable def kpLA : Keypoint := ⟨0, 100, 1, nameLeftAnkle⟩

/-- Concrete keypoint used in witnesses: nose at the origin. -/
noncomputable def kpNose : Keypoint := ⟨0, 0, 0.9, nameNose⟩

/-- A pose carrying all four required landmarks. -/
noncomputable def completePose : Pose := ⟨[kpLS, kpRS, kpLA, kpNose]⟩

/-- A pose missing the nose landmark. -/
noncomputable def missingNosePose : Pose := ⟨[kpLS, kpRS, kpLA]⟩

/-- A pose missing the left ankle landmark. -/
noncomputable def missingAnklePose : Pose := ⟨[kpLS, kpRS, kpNose]⟩

/-- C1: for every pose list whose first pose contains all four required
landmarks, calculateMeasurements returns the rounded scaled full 2D Euclidean
shoulder distance and the rounded scaled vertical-only nose-to-ankle
distance. -/
theorem shoulder_euclidean_height_vertical (pose : Pose) (rest : List Pose)
    (ls rs la n : Keypoint)
    (hls : findLandmark pose.keypoints nameLeftShoulder = some ls)
    (hrs : findLandmark pose.keypoints nameRightShoulder = some rs)
    (hla : findLandmark pose.keypoints nameLeftAnkle = some la)
    (hn : findLandmark pose.keypoints nameNose = some n) :
    calculateMeasurements (pose :: rest) =
      some ⟨round (|n.y - la.y| * PIXEL_TO_CM_RATIO),
            round (Real.sqrt ((rs.x - ls.x) ^ 2 + (rs.y - ls.y) ^ 2) * PIXEL_TO_CM_RATIO)⟩ :=
  calcM_cons_eq pose rest ls rs la n hls hrs hla hn

/-- Witness for C1 at a concrete complete pose. -/
theorem shoulder_euclidean_height_vertical_witness :
    findLandmark completePose.keypoints nameLeftShoulder = some kpLS ∧
    findLandmark completePose.keypoints nameRightShoulder = some kpRS ∧
    findLandmark completePose.keypoints nameLeftAnkle = some kpLA ∧
    findLandmark completePose.keypoints nameNose = some kpNose ∧
    calculateMeasurements [completePose] =
      some ⟨round (|kpNose.y - kpLA.y| * PIXEL_TO_CM_RATIO),
            round (Real.sqrt ((kpRS.x - kpLS.x) ^ 2 + (kpRS.y - kpLS.y) ^ 2) *
              PIXEL_TO_CM_RATIO)⟩ :=
  ⟨rfl, rfl, rfl, rfl,
    shoulder_euclidean_height_vertical completePose [] kpLS kpRS kpLA kpNose rfl rfl rfl rfl⟩

/-- C2: for an empty pose list, or a pose list whose first pose is missing a
required landmark, calculateMeasurements returns none and one detect cycle
leaves the published state unchanged. -/
theorem missing_landmark_no_overwrite (poses : List Pose)
    (h : poses = [] ∨ ∃ pose rest, poses = pose :: rest ∧
      (findLandmark pose.keypoints nameLeftShoulder = none ∨
       findLandmark pose.keypoints nameRightShoulder = none ∨
       findLandmark pose.keypoints nameLeftAnkle = none ∨
       findLandmark pose.keypoints nameNose = none)) :
    calculateMeasurements poses = none ∧
      ∀ (d v : Bool) (s : Option Measurements), detect d v poses s = s := by
  have hnone : calculateMeasurements poses = none := by
    rcases h with h | ⟨pose, rest, hp, hm⟩
    · rw [h] ; rfl
    · rw [hp] ; exact calcM_cons_missing pose rest hm
  exact ⟨hnone, fun d v s => detect_none d v poses s hnone⟩

/-- Witness for C2 at a concrete pose missing the nose landmark. -/
theorem missing_landmark_no_overwrite_witness :
    ([missingNosePose] = ([] : List Pose) ∨ ∃ pose rest, [missingNosePose] = pose :: rest ∧
      (findLandmark pose.keypoints nameLeftShoulder = none ∨
       findLandmark pose.keypoints nameRightShoulder = none ∨
       findLandmark pose.keypoints nameLeftAnkle = none ∨
       findLandmark pose.keypoints nameNose = none)) ∧
    (calculateMeasurements [missingNosePose] = none ∧
      ∀ (d v : Bool) (s : Option Measurements), detect d v [missingNosePose] s = s) :=
  have h : [missingNosePose] = ([] : List Pose) ∨ ∃ pose rest,
      [missingNosePose] = pose :: rest ∧
      (findLandmark pose.keypoints nameLeftShoulder = none ∨
       findLandmark pose.keypoints nameRightShoulder = none ∨
       findLandmark pose.keypoints nameLeftAnkle = none ∨
       findLandmark pose.keypoints nameNose = none) :=
    Or.inr ⟨missingNosePose, [], rfl, Or.inr (Or.inr (Or.inr rfl))⟩
  ⟨h, missing_landmark_no_overwrite [missingNosePose] h⟩

/-- Scenario A keypoint: left shoulder at (100, 200). -/
noncomputable def aLS : Keypoint := ⟨100, 200, 1, nameLeftShoulder⟩

/-- Scenario A keypoint: right shoulder at (200, 200). -/
noncomputable def aRS : Keypoint := ⟨200, 200, 1, nameRightShoulder⟩

/-- Scenario A keypoint: left ankle at (150, 600). -/
noncomputable def aLA : Keypoint := ⟨150, 600, 1, nameLeftAnkle⟩

/-- Scenario A keypoint: nose at (150, 100). -/
noncomputable def aNose : Keypoint := ⟨150, 100, 1, nameNose⟩

/-- The scenario A pose of the specification. -/
noncomputable def scenarioAPose : Pose := ⟨[aLS, aRS, aLA, aNose]⟩

/-- 500 px scale to 132 cm after rounding. -/
theorem round_ratio_500 : round ((500 : ℝ) * PIXEL_TO_CM_RATIO) = 132 := by
  rw [round_eq, Int.floor_eq_iff]
  constructor <;> norm_num [ PIXEL_TO_CM_RATIO]

/-- 100 px scale to 26 cm after rounding. -/
theorem round_ratio_100 : round ((100 : ℝ) * PIXEL_TO_CM_RATIO) = 26 := by
  rw [round_eq, Int.floor_eq_iff]
  constructor <;> norm_num [ PIXEL_TO_CM_RATIO]

/-- The scenario A shoulder distance evaluates exactly. -/
theorem sqrt_scenarioA :
    Real.sqrt (((200 : ℝ) - 100) ^ 2 + ((200 : ℝ) - 200) ^ 2) = 100 := by
  rw [show ((200 : ℝ) - 100) ^ 2 + ((200 : ℝ) - 200) ^ 2 = 100 ^ 2 by norm_num]
  exact Real.sqrt_sq (by norm_num)

/-- C3: on the scenario A pose, calculateMeasurements returns exactly
shoulderWidth 26 and height 132. -/
theorem calculateMeasurements_scenarioA :
    calculateMeasurements [scenarioAPose] = some ⟨132, 26⟩ := by
  rw [calcM_cons_eq scenarioAPose [] aLS aRS aLA aNose rfl rfl rfl rfl]
  simp only [ aLS, aRS, aLA, aNose]
  rw [show |(100 : ℝ) - 600| = 500 by
        rw [show (100 : ℝ) - 600 = -500 by norm_num, abs_neg,
          abs_of_nonneg (by norm_num : (0 : ℝ) ≤ 500)],
      sqrt_scenarioA, round_ratio_500, round_ratio_100]

/-- C4: when the first of at least two poses is missing a required landmark,
calculateMeasurements returns none even when a later pose is complete. -/
theorem first_pose_only (p₁ p₂ : Pose) (rest : List Pose)
    (hmiss : findLandmark p₁.keypoints nameLeftShoulder = none ∨
             findLandmark p₁.keypoints nameRightShoulder = none ∨
             findLandmark p₁.keypoints nameLeftAnkle = none ∨
             findLandmark p₁.keypoints nameNose = none)
    (hlater : ∃ p, p ∈ p₂ :: rest ∧
      (findLandmark p.keypoints nameLeftShoulder).isSome = true ∧
      (findLandmark p.keypoints nameRightShoulder).isSome = true ∧
      (findLandmark p.keypoints nameLeftAnkle).isSome = true ∧
      (findLandmark p.keypoints nameNose).isSome = true) :
    calculateMeasurements (p₁ :: p₂ :: rest) = none :=
  calcM_cons_missing p₁ (p₂ :: rest) hmiss

/-- Witness for C4: first pose missing the left ankle, second pose complete. -/
theorem first_pose_only_witness :
    (findLandmark missingAnklePose.keypoints nameLeftShoulder = none ∨
     findLandmark missingAnklePose.keypoints nameRightShoulder = none ∨
     findLandmark missingAnklePose.keypoints nameLeftAnkle = none ∨
     findLandmark missingAnklePose.keypoints nameNose = none) ∧
    (∃ p, p ∈ completePose :: ([] : List Pose) ∧
      (findLandmark p.keypoints nameLeftShoulder).isSome = true ∧
      (findLandmark p.keypoints nameRightShoulder).isSome = true ∧
      (findLandmark p.keypoints nameLeftAnkle).isSome = true ∧
      (findLandmark p.keypoints nameNose).isSome = true) ∧
    calculateMeasurements [missingAnklePose, completePose] = none :=
  have hmiss : findLandmark missingAnklePose.keypoints nameLeftShoulder = none ∨
      findLandmark missingAnklePose.keypoints nameRightShoulder = none ∨
      findLandmark missingAnklePose.keypoints nameLeftAnkle = none ∨
      findLandmark missingAnklePose.keypoints nameNose = none :=
    Or.inr (Or.inr (Or.inl rfl))
  have hlater : ∃ p, p ∈ completePose :: ([] : List Pose) ∧
      (findLandmark p.keypoints nameLeftShoulder).isSome = true ∧
      (findLandmark p.keypoints nameRightShoulder).isSome = true ∧
      (findLandmark p.keypoints nameLeftAnkle).isSome = true ∧
      (findLandmark p.keypoints nameNose).isSome = true :=
    ⟨completePose, by simp, rfl, rfl, rfl, rfl⟩
  ⟨hmiss, hlater, first_pose_only missingAnklePose completePose [] hmiss hlater⟩

/-- A detect cycle keeps the published state populated. -/
theorem detect_isSome (d v : Bool) (ps : List Pose) (s : Option Measurements)
    (h : s.isSome = true) : (detect d v ps s).isSome = true := by
  cases d <;> cases v <;>
    rcases hc : calculateMeasurements ps with _ | m <;> simp [detect, hc, h]

/-- Each detect cycle either keeps the state or publishes a fresh complete
measurement. -/
theorem detect_step_cases (d v : Bool) (ps : List Pose) (st : Option Measurements) :
    detect d v ps st = st ∨
      ∃ m, calculateMeasurements ps = some m ∧ detect d v ps st = some m := by
  cases d <;> cases v <;>
    rcases hc : calculateMeasurements ps with _ | m <;> simp [detect, hc]

/-- C5: the published measurement is never cleared: every cycle keeps the
state or replaces it with a complete measurement, and once the state is
populated it stays populated along any sequence of cycles. -/
theorem measurement_never_cleared (s : Option Measurements) (l : List CycleInput)
    (hs : s.isSome = true) :
    (runCycles s l).isSome = true ∧
    ∀ (c : CycleInput) (st : Option Measurements),
      detect c.detectorReady c.videoAvailable c.poses st = st ∨
      ∃ m, calculateMeasurements c.poses = some m ∧
        detect c.detectorReady c.videoAvailable c.poses st = some m := by
  constructor
  · induction l generalizing s with
    | nil => simpa [runCycles] using hs
    | cons c l ih =>
      have hstep := detect_isSome c.detectorReady c.videoAvailable c.poses s hs
      simpa [runCycles, List.foldl_cons] using ih _ hstep
  · exact fun c st => detect_step_cases c.detectorReady c.videoAvailable c.poses st

/-- Witness for C5: a populated state survives a cycle with no detected pose. -/
theorem measurement_never_cleared_witness :
    (some (⟨170, 40⟩ : Measurements)).isSome = true ∧
    ((runCycles (some ⟨170, 40⟩) [⟨true, true, []⟩]).isSome = true ∧
     ∀ (c : CycleInput) (st : Option Measurements),
       detect c.detectorReady c.videoAvailable c.poses st = st ∨
       ∃ m, calculateMeasurements c.poses = some m ∧
         detect c.detectorReady c.videoAvailable c.poses st = some m) :=
  ⟨rfl, measurement_never_cleared (some ⟨170, 40⟩) [⟨true, true, []⟩] rfl⟩

/-- C6: calculateMeasurements is a pure function of the pose list: when it
produces a measurement, the published result does not depend on the prior
pipeline state, and feeding the identical pose list twice publishes the
identical value. -/
theorem calculateMeasurements_pure (poses : List Pose) (s₁ s₂ : Option Measurements)
    (h : (calculateMeasurements poses).isSome = true) :
    detect true true poses s₁ = detect true true poses s₂ ∧
    detect true true poses (detect true true poses s₁) = detect true true poses s₁ := by
  rcases hc : calculateMeasurements poses with _ | m
  · rw [hc] at h ; exact absurd h (by simp)
  · constructor <;> simp [detect, hc]

/-- Witness for C6 at a concrete complete pose and two distinct states. -/
theorem calculateMeasurements_pure_witness :
    (calculateMeasurements [completePose]).isSome = true ∧
    (detect true true [completePose] none = detect true true [completePose] (some ⟨1, 1⟩) ∧
     detect true true [completePose] (detect true true [completePose] none) =
       detect true true [completePose] none) :=
  ⟨rfl, calculateMeasurements_pure [completePose] none (some ⟨1, 1⟩) rfl⟩

/-- The conversion ratio is nonnegative. -/
theorem ratio_nonneg : 0 ≤ PIXEL_TO_CM_RATIO := by
  norm_num [ PIXEL_TO_CM_RATIO]

/-- Rounding preserves nonnegativity. -/
theorem round_nonneg_of_nonneg (x : ℝ) (hx : 0 ≤ x) : 0 ≤ round x := by
  rw [round_eq]
  exact Int.le_floor.mpr (by push_cast ; linarith)

/-- C7: with all four landmarks present, the returned measurement has
nonnegative height and shoulder width for arbitrary coordinates. -/
theorem measurement_nonneg (pose : Pose) (rest : List Pose) (ls rs la n : Keypoint)
    (hls : findLandmark pose.keypoints nameLeftShoulder = some ls)
    (hrs : findLandmark pose.keypoints nameRightShoulder = some rs)
    (hla : findLandmark pose.keypoints nameLeftAnkle = some la)
    (hn : findLandmark pose.keypoints nameNose = some n) :
    ∃ m, calculateMeasurements (pose :: rest) = some m ∧
      0 ≤ m.height ∧ 0 ≤ m.shoulderWidth := by
  refine ⟨_, calcM_cons_eq pose rest ls rs la n hls hrs hla hn, ?_, ?_⟩
  · exact round_nonneg_of_nonneg _ (mul_nonneg (abs_nonneg _) ratio_nonneg)
  · exact round_nonneg_of_nonneg _ (mul_nonneg (Real.sqrt_nonneg _) ratio_nonneg)

/-- Keypoint with negative coordinates for the nonnegativity witnesses. -/
noncomputable def negLS : Keypoint := ⟨-50, -20, 0.1, nameLeftShoulder⟩

/-- Keypoint with negative coordinates for the nonnegativity witnesses. -/
noncomputable def negRS : Keypoint := ⟨-10, -20, 0.2, nameRightShoulder⟩

/-- Keypoint outside the 640 by 480 frame for the witnesses. -/
noncomputable def negLA : Keypoint := ⟨700, 900, 0.3, nameLeftAnkle⟩

/-- Keypoint with negative coordinates for the witnesses. -/
noncomputable def negNose : Keypoint := ⟨-5, -300, 0.4, nameNose⟩

/-- A pose whose coordinates are negative or outside the frame bounds. -/
noncomputable def wildPose : Pose := ⟨[negLS, negRS, negLA, negNose]⟩

/-- Witness for C7 at a pose with negative and out-of-frame coordinates. -/
theorem measurement_nonneg_witness :
    findLandmark wildPose.keypoints nameLeftShoulder = some negLS ∧
    findLandmark wildPose.keypoints nameRightShoulder = some negRS ∧
    findLandmark wildPose.keypoints nameLeftAnkle = some negLA ∧
    findLandmark wildPose.keypoints nameNose = some negNose ∧
    ∃ m, calculateMeasurements [wildPose] = some m ∧
      0 ≤ m.height ∧ 0 ≤ m.shoulderWidth :=
  ⟨rfl, rfl, rfl, rfl,
    measurement_nonneg wildPose [] negLS negRS negLA negNose rfl rfl rfl rfl⟩

/-- Two keypoints identical except possibly in the confidence score. -/
def sameGeometry (a b : Keypoint) : Prop :=
  a.name = b.name ∧ a.x = b.x ∧ a.y = b.y

/-- Two pose lists identical except for the confidence scores of their
keypoints. -/
def samePosesUpToConfidence (ps₁ ps₂ : List Pose) : Prop :=
  List.Forall₂ (fun p₁ p₂ => List.Forall₂ sameGeometry p₁.keypoints p₂.keypoints) ps₁ ps₂

/-- Landmark lookup agrees on keypoint lists that differ only in confidence:
both fail, or both succeed with geometrically identical keypoints. -/
theorem findLandmark_congr (nm : String) {l₁ l₂ : List Keypoint}
    (h : List.Forall₂ sameGeometry l₁ l₂) :
    (findLandmark l₁ nm = none ∧ findLandmark l₂ nm = none) ∨
      ∃ a b, findLandmark l₁ nm = some a ∧ findLandmark l₂ nm = some b ∧
        sameGeometry a b := by
  induction h with
  | nil => exact Or.inl ⟨rfl, rfl⟩
  | cons hab htl ih =>
    rename_i a b l₁ l₂
    by_cases hname : a.name = nm
    · refine Or.inr ⟨a, b, ?_, ?_, hab⟩
      · exact List.find?_cons_of_pos _ (by simpa using hname)
      · exact List.find?_cons_of_pos _ (by simpa using hab.1 ▸ hname)
    · have hbname : ¬ b.name = nm := fun hc => hname (hab.1 ▸ hc)
      have e₁ : findLandmark (a :: l₁) nm = findLandmark l₁ nm :=
        List.find?_cons_of_neg _ (by simpa using hname)
      have e₂ : findLandmark (b :: l₂) nm = findLandmark l₂ nm :=
        List.find?_cons_of_neg _ (by simpa using hbname)
      rw [e₁, e₂]
      exact ih

/-- C8: calculateMeasurements never reads confidence scores: two pose lists
identical except for the confidence values of their keypoints give equal
results. -/
theorem confidence_independent (ps₁ ps₂ : List Pose)
    (h : samePosesUpToConfidence ps₁ ps₂) :
    calculateMeasurements ps₁ = calculateMeasurements ps₂ := by
  cases h with
  | nil => rfl
  | cons hp htl =>
    rcases findLandmark_congr nameLeftShoulder hp with ⟨ha₁, hb₁⟩ | ⟨ls₁, ls₂, ha₁, hb₁, hg₁⟩
    · rw [calcM_cons_missing _ _ (Or.inl ha₁), calcM_cons_missing _ _ (Or.inl hb₁)]
    rcases findLandmark_congr nameRightShoulder hp with ⟨ha₂, hb₂⟩ | ⟨rs₁, rs₂, ha₂, hb₂, hg₂⟩
    · rw [calcM_cons_missing _ _ (Or.inr (Or.inl ha₂)),
        calcM_cons_missing _ _ (Or.inr (Or.inl hb₂))]
    rcases findLandmark_congr nameLeftAnkle hp with ⟨ha₃, hb₃⟩ | ⟨la₁, la₂, ha₃, hb₃, hg₃⟩
    · rw [calcM_cons_missing _ _ (Or.inr (Or.inr (Or.inl ha₃))),
        calcM_cons_missing _ _ (Or.inr (Or.inr (Or.inl hb₃)))]
    rcases findLandmark_congr nameNose hp with ⟨ha₄, hb₄⟩ | ⟨n₁, n₂, ha₄, hb₄, hg₄⟩
    · rw [calcM_cons_missing _ _ (Or.inr (Or.inr (Or.inr ha₄))),
        calcM_cons_missing _ _ (Or.inr (Or.inr (Or.inr hb₄)))]
    rw [calcM_cons_eq _ _ ls₁ rs₁ la₁ n₁ ha₁ ha₂ ha₃ ha₄,
      calcM_cons_eq _ _ ls₂ rs₂ la₂ n₂ hb₁ hb₂ hb₃ hb₄,
      hg₁.2.1, hg₁.2.2, hg₂.2.1, hg₂.2.2, hg₃.2.2, hg₄.2.2]

/-- The complete pose with the same geometry as completePose but different
confidence scores on every keypoint. -/
noncomputable def completePoseAltScores : Pose :=
  ⟨[⟨0, 0, 0.2, nameLeftShoulder⟩, ⟨3, 4, 0.3, nameRightShoulder⟩,
    ⟨0, 100, 0.4, nameLeftAnkle⟩, ⟨0, 0, 0.5, nameNose⟩]⟩

/-- Witness for C8: two concrete pose lists differing only in confidence. -/
theorem confidence_independent_witness :
    samePosesUpToConfidence [completePose] [completePoseAltScores] ∧
    calculateMeasurements [completePose] = calculateMeasurements [completePoseAltScores] :=
  have h : samePosesUpToConfidence [completePose] [completePoseAltScores] := by
    simp [samePosesUpToConfidence, sameGeometry, completePose, completePoseAltScores,
      kpLS, kpRS, kpLA, kpNose]
  ⟨h, confidence_independent [completePose] [completePoseAltScores] h⟩

/-- C10: calculateMeasurements validates no coordinate values: whenever the
four required landmark names are present in the first pose, a measurement is
produced, for arbitrary coordinates, with the frame bounds never consulted. -/
theorem no_coordinate_validation (pose : Pose) (rest : List Pose) (ls rs la n : Keypoint)
    (hls : findLandmark pose.keypoints nameLeftShoulder = some ls)
    (hrs : findLandmark pose.keypoints nameRightShoulder = some rs)
    (hla : findLandmark pose.keypoints nameLeftAnkle = some la)
    (hn : findLandmark pose.keypoints nameNose = some n) :
    (calculateMeasurements (pose :: rest)).isSome = true := by
  rw [calcM_cons_eq pose rest ls rs la n hls hrs hla hn] ; rfl

/-- Witness for C10 at a pose with negative and out-of-frame coordinates. -/
theorem no_coordinate_validation_witness :
    findLandmark wildPose.keypoints nameLeftShoulder = some negLS ∧
    findLandmark wildPose.keypoints nameRightShoulder = some negRS ∧
    findLandmark wildPose.keypoints nameLeftAnkle = some negLA ∧
    findLandmark wildPose.keypoints nameNose = some negNose ∧
    (calculateMeasurements [wildPose]).isSome = true :=
  ⟨rfl, rfl, rfl, rfl,
    no_coordinate_validation wildPose [] negLS negRS negLA negNose rfl rfl rfl rfl⟩

end MeasurementCamera
